import Mathlib

/-!
Shallow embedding of `src/TrafficPatternClassifier.py` and proofs about it.

Numeric modelling: Python ints/floats and numpy arithmetic are modelled exactly
over `ℚ` (datetimes as seconds since the epoch, so `ts.timestamp()` is the
identity and `timedelta(minutes=w)` is `60*w`).  Square roots (`np.std`,
pandas `Series.std`) are irrational in general; they are carried either as the
stored variance together with square-root-free comparisons, bridged to the
`Real.sqrt` formulation by `gt_mean_add_two_sqrt_iff`, or directly as
`Real.sqrt` of the variance where nothing downstream reads the value.
-/

namespace TrafficPatternClassifier

/-- One raw access-log record (the dict consumed in `extract_features`,
lines 36-57): keys `ip`, `timestamp` (a datetime, modelled as rational seconds
since the epoch), `request['path']`, `status_code`, `bytes`, `user_agent`. -/
structure LogEntry where
  ip : String
  timestamp : ℚ
  path : String
  status_code : ℕ
  bytes : ℚ
  user_agent : String
deriving DecidableEq

/-- `np.mean` over a list (`0/0 = 0` on the empty list, a branch the source
guards against wherever it matters). -/
def mean {α : Type} [DivisionRing α] (xs : List α) : α := xs.sum / xs.length

/-- The square of `np.std(xs)`: the population variance (numpy default
`ddof=0`). -/
def popVariance {α : Type} [DivisionRing α] (xs : List α) : α :=
  (xs.map (fun x => (x - mean xs)^2)).sum / xs.length

/-- The square of pandas `Series.std()` with its default `ddof=1`: the sample
variance.  On a single element pandas divides 0 by 0 and yields NaN, and every
`>` comparison against NaN is false; here `0 / 0 = 0` and the comparison in
`exceedsTwoStd` is likewise false, so the two agree on which rows get flagged. -/
def sampleVariance {α : Type} [DivisionRing α] (xs : List α) : α :=
  (xs.map (fun x => (x - mean xs)^2)).sum / ((xs.length : α) - 1)

/-- `np.diff`: consecutive differences of a list. -/
def npDiff : List ℚ → List ℚ
  | x :: y :: rest => (y - x) :: npDiff (y :: rest)
  | _ => []

/-- Lines 70-85, `_count_requests_in_window`: if `timestamps` is empty return
0; otherwise for each `window_end` in `timestamps` count the `ts` with
`window_start <= ts <= window_end` (closed at BOTH ends, line 82) where
`window_start = window_end - timedelta(minutes=window_minutes)`, keeping a
running maximum that starts at 0. -/
def _count_requests_in_window (timestamps : List ℚ) (window_minutes : ℕ) : ℕ :=
  if timestamps = [] then 0
  else
    let window : ℚ := 60 * window_minutes
    (timestamps.map (fun window_end =>
        (timestamps.filter (fun ts =>
          decide (window_end - window ≤ ts) && decide (ts ≤ window_end))).length)).foldl max 0

/-- One row of the feature DataFrame built in `extract_features` (lines
48-64).  The source stores the column `std_time_between_requests =
np.std(time_diffs) if len(time_diffs) > 0 else 0`; that value is irrational in
general, so this record stores its square (`var_time_between_requests`, same
guard) and `std_time_between_requests` below takes the square root.  No code
path the claims touch reads the numeric value of the std column. -/
structure FeatureVector where
  ip : String
  request_count : ℕ
  avg_time_between_requests : ℚ
  var_time_between_requests : ℚ
  unique_paths_ratio : ℚ
  success_ratio : ℚ
  error_ratio : ℚ
  bytes_transferred_mean : ℚ
  user_agent_count : ℕ
  requests_1m : ℕ
  requests_5m : ℕ
  requests_15m : ℕ
  requests_30m : ℕ
  requests_60m : ℕ
deriving DecidableEq

/-- The loop body of `extract_features` (lines 36-66) for one value of `ip`:
filter the group, sort its timestamps, take `np.diff`, and fill every column
exactly as lines 48-64 do. -/
def featureFor (logs : List LogEntry) (ip : String) : FeatureVector :=
  let ip_logs := logs.filter (fun l => l.ip == ip)
  let timestamps := (ip_logs.map (fun l => l.timestamp)).insertionSort (· ≤ ·)
  let time_diffs := npDiff timestamps
  let unique_paths := ((ip_logs.map (fun l => l.path)).dedup).length
  { ip := ip
    request_count := ip_logs.length
    avg_time_between_requests := if 0 < time_diffs.length then mean time_diffs else 0
    var_time_between_requests := if 0 < time_diffs.length then popVariance time_diffs else 0
    unique_paths_ratio := (unique_paths : ℚ) / ip_logs.length
    success_ratio := ((ip_logs.filter (fun l => decide (l.status_code < 400))).length : ℚ) / ip_logs.length
    error_ratio := ((ip_logs.filter (fun l => decide (400 ≤ l.status_code))).length : ℚ) / ip_logs.length
    bytes_transferred_mean := mean (ip_logs.map (fun l => l.bytes))
    user_agent_count := ((ip_logs.map (fun l => l.user_agent)).dedup).length
    requests_1m := _count_requests_in_window timestamps 1
    requests_5m := _count_requests_in_window timestamps 5
    requests_15m := _count_requests_in_window timestamps 15
    requests_30m := _count_requests_in_window timestamps 30
    requests_60m := _count_requests_in_window timestamps 60 }

/-- Lines 35-68, `extract_features`: one feature row per element of
`set(log['ip'] for log in logs)` (iteration order of a Python set is
arbitrary; `dedup` keeps first occurrences, and no claim depends on order). -/
def extract_features (logs : List LogEntry) : List FeatureVector :=
  ((logs.map (fun l => l.ip)).dedup).map (featureFor logs)

/-- The source's `std_time_between_requests` column value (line 52): the
square root of the stored variance (`np.std` of the diffs, or 0 when there are
no diffs; `Real.sqrt 0 = 0` so the guard commutes with the root). -/
noncomputable def std_time_between_requests (fv : FeatureVector) : ℝ :=
  Real.sqrt fv.var_time_between_requests

/-- One row of `results_df` (lines 110-112): the feature row with the two
label columns attached.  `anomaly_score` is the IsolationForest prediction
(−1 = outlier, 1 = inlier); `cluster_label` is the DBSCAN label (−1 = noise). -/
structure AnalysisResult where
  fv : FeatureVector
  anomaly_score : ℤ
  cluster_label : ℤ
deriving DecidableEq

/-- The metrics dict of lines 115-121.  The source also stores
`timestamp: datetime.now()`, a wall-clock read outside every claim; it is
omitted here. -/
structure RunMetrics where
  total_ips : ℕ
  anomaly_count : ℕ
  cluster_count : ℕ
  noise_points : ℕ
deriving DecidableEq

/-- Lines 215-240, `_calculate_risk_level`.  The source reads exactly four
columns of the row (`request_count`, `avg_time_between_requests`,
`error_ratio`, `user_agent_count`); they are passed here as the four
arguments, in that order.  Python float literals `0.1` and `0.5` are modelled
as the exact rationals they denote in the source text. -/
def _calculate_risk_level (request_count : ℕ) (avg_time_between_requests : ℚ)
    (error_ratio : ℚ) (user_agent_count : ℕ) : String :=
  let risk_score : ℕ := 0
  let risk_score := if 1000 < request_count then risk_score + 3
    else if 500 < request_count then risk_score + 2 else risk_score
  let risk_score := if avg_time_between_requests < 1/10 then risk_score + 3 else risk_score
  let risk_score := if 1/2 < error_ratio then risk_score + 2 else risk_score
  let risk_score := if 10 < user_agent_count then risk_score + 2 else risk_score
  if 8 ≤ risk_score then "High" else if 5 ≤ risk_score then "Medium" else "Low"

/-- Lines 197-213, `_identify_unusual_patterns`. -/
def _identify_unusual_patterns (row : AnalysisResult) : List String :=
  let patterns : List String := []
  let patterns := if 1000 < row.fv.request_count
    then patterns ++ [ "Extremely high request count"] else patterns
  let patterns := if row.fv.avg_time_between_requests < 1/10
    then patterns ++ [ "Unusually rapid requests"] else patterns
  let patterns := if 1/2 < row.fv.error_ratio
    then patterns ++ [ "High error rate"] else patterns
  let patterns := if 10 < row.fv.user_agent_count
    then patterns ++ [ "Multiple user agents"] else patterns
  patterns

/-- One element of the list built by `_analyze_anomalies` (lines 170-175). -/
structure AnomalyFinding where
  ip : String
  request_count : ℕ
  unusual_patterns : List String
  risk_level : String
deriving DecidableEq

/-- Lines 165-176, `_analyze_anomalies`: the rows with `anomaly_score == -1`,
each turned into a finding with its tag list and risk level. -/
def _analyze_anomalies (df : List AnalysisResult) : List AnomalyFinding :=
  (df.filter (fun r => r.anomaly_score == -1)).map (fun r =>
    { ip := r.fv.ip
      request_count := r.fv.request_count
      unusual_patterns := _identify_unusual_patterns r
      risk_level := _calculate_risk_level r.fv.request_count
        r.fv.avg_time_between_requests r.fv.error_ratio r.fv.user_agent_count })

/-- The flag comparison of line 146, `request_count > mean + 2*std`, in
square-root-free form: `m + 2*sqrt v < x` iff `m < x` and `4*v < (x-m)^2`
(see `gt_mean_add_two_sqrt_iff` below), which keeps the predicate decidable
over `ℚ`. -/
def exceedsTwoStd (m v x : ℚ) : Bool :=
  decide (m < x) && decide (4 * v < (x - m)^2)

/-- Lines 143-147, `_get_high_frequency_ips`: keep the rows whose
`request_count` exceeds `mean + 2 * std` of the `request_count` column, where
pandas `Series.std()` is the sample standard deviation (`ddof=1`). -/
def _get_high_frequency_ips (df : List AnalysisResult) : List AnalysisResult :=
  let counts := df.map (fun r => (r.fv.request_count : ℚ))
  df.filter (fun r =>
    exceedsTwoStd (mean counts) (sampleVariance counts) (r.fv.request_count : ℚ))

/-- The recommendation string of lines 248-250. -/
def recRateLimiting : String :=
  "Consider implementing rate limiting for high-frequency requestors"

/-- The recommendation string of lines 254-256. -/
def recUserAgents : String := "Monitor IPs using multiple user agents"

/-- The recommendation string of lines 260-262. -/
def recErrorRates : String := "Investigate IPs with high error rates"

/-- The recommendation string of lines 266-268. -/
def recTiming : String := "Implement request timing analysis"

/-- Lines 242-270, `_generate_recommendations`: four batch-level `any` checks,
each appending one fixed string, evaluated in the source's order. -/
def _generate_recommendations (df : List AnalysisResult) : List String :=
  let recommendations : List String := []
  let recommendations := if df.any (fun r => decide (1000 < r.fv.request_count))
    then recommendations ++ [recRateLimiting] else recommendations
  let recommendations := if df.any (fun r => decide (10 < r.fv.user_agent_count))
    then recommendations ++ [recUserAgents] else recommendations
  let recommendations := if df.any (fun r => decide ((1:ℚ)/2 < r.fv.error_ratio))
    then recommendations ++ [recErrorRates] else recommendations
  let recommendations := if df.any (fun r => decide (r.fv.avg_time_between_requests < 1/10))
    then recommendations ++ [recTiming] else recommendations
  recommendations

/-- The numeric columns of one feature row, in DataFrame insertion order
(line 98 keeps every column except `ip`; all other columns are numeric).
`ℝ`-valued because the std column is a square root. -/
noncomputable def numericRow (fv : FeatureVector) : List ℝ :=
  [(fv.request_count : ℝ), (fv.avg_time_between_requests : ℝ),
   std_time_between_requests fv, (fv.unique_paths_ratio : ℝ),
   (fv.success_ratio : ℝ), (fv.error_ratio : ℝ),
   (fv.bytes_transferred_mean : ℝ), (fv.user_agent_count : ℝ),
   (fv.requests_1m : ℝ), (fv.requests_5m : ℝ), (fv.requests_15m : ℝ),
   (fv.requests_30m : ℝ), (fv.requests_60m : ℝ)]

/-- Standardize one column to zero mean and unit variance, as
`StandardScaler` does: subtract the column mean and divide by the population
standard deviation, with a zero standard deviation replaced by 1. -/
noncomputable def standardizeColumn (col : List ℝ) : List ℝ :=
  let mu := mean col
  let sigma := Real.sqrt (popVariance col)
  let scale := if sigma = 0 then 1 else sigma
  col.map (fun x => (x - mu) / scale)

/-- The sklearn validation error raised on a zero-row input matrix. -/
def zeroSamplesMessage : String :=
  "ValueError: Found array with 0 sample(s) while a minimum of 1 is required by StandardScaler"

/-- Modelled from sklearn, which is outside this repository:
`StandardScaler().fit_transform` (line 101) raises
`ValueError: Found array with 0 sample(s) ... while a minimum of 1 is
required` when the input matrix has zero rows, and otherwise returns the
column-standardized matrix, fit fresh on this batch. -/
noncomputable def fit_transform (X : List (List ℝ)) : Except String (List (List ℝ)) :=
  if X.length = 0 then
    Except.error zeroSamplesMessage
  else
    Except.ok (X.transpose.map standardizeColumn).transpose

/-- Modelled from the spec: the isolation-based outlier scorer with its fixed
seed (`IsolationForest(random_state=42, contamination=0.1)`, line 14) and the
density clusterer (`DBSCAN(eps=0.5, min_samples=5)`, line 15) are external
library algorithms; with the seed fixed each is a deterministic function from
the standardized matrix to one integer label per row (−1 for
outlier/noise).  They enter the embedding as explicit function fields. -/
structure PatternModels where
  isolation_forest : List (List ℝ) → List ℤ
  dbscan : List (List ℝ) → List ℤ

/-- Lines 87-123, `analyze_patterns`: scale the numeric columns, run both
detectors, attach their labels to the rows, and compute the metrics dict.  A
`ValueError` escaping `fit_transform` propagates out of the call; `Except`
models that. -/
noncomputable def analyze_patterns (models : PatternModels)
    (features_df : List FeatureVector) :
    Except String (List AnalysisResult × RunMetrics) :=
  let X := features_df.map numericRow
  match fit_transform X with
  | Except.error e => Except.error e
  | Except.ok X_scaled =>
    let if_predictions := models.isolation_forest X_scaled
    let dbscan_labels := models.dbscan X_scaled
    let results_df := (features_df.zip (if_predictions.zip dbscan_labels)).map
      (fun p => { fv := p.1, anomaly_score := p.2.1, cluster_label := p.2.2 })
    let metrics : RunMetrics :=
      { total_ips := features_df.length
        anomaly_count := if_predictions.countP (fun l => l == -1)
        cluster_count := dbscan_labels.dedup.length -
          (if (-1 : ℤ) ∈ dbscan_labels then 1 else 0)
        noise_points := dbscan_labels.countP (fun l => l == -1) }
    Except.ok (results_df, metrics)

/-- Stated from the spec's words, for comparison with
`_count_requests_in_window`: for every timestamp `t` in the group, count the
timestamps in the half-open-at-start interval `(t − window, t]` — a timestamp
exactly equal to `t − window` is NOT counted — and keep the maximum. -/
def windowCountSpec (timestamps : List ℚ) (window_minutes : ℕ) : ℕ :=
  let window : ℚ := 60 * window_minutes
  (timestamps.map (fun t =>
      (timestamps.filter (fun ts =>
        decide (t - window < ts) && decide (ts ≤ t))).length)).foldl max 0

/-- Stated from the spec's words, for comparison with
`_get_high_frequency_ips`: a row qualifies when `request_count` exceeds
`mean + 2 * stddev` with POPULATION statistics over the result set (same
square-root-free comparison as `exceedsTwoStd`). -/
def specHighFrequencyFlag (df : List AnalysisResult) (r : AnalysisResult) : Bool :=
  let counts := df.map (fun t => (t.fv.request_count : ℚ))
  exceedsTwoStd (mean counts) (popVariance counts) (r.fv.request_count : ℚ)

/-- A result row whose only distinguishing field is `request_count`; used to
build concrete batches for the statistics of `_get_high_frequency_ips`. -/
def plainRow (ip : String) (request_count : ℕ) : AnalysisResult :=
  { fv := { ip := ip
            request_count := request_count
            avg_time_between_requests := 0
            var_time_between_requests := 0
            unique_paths_ratio := 1
            success_ratio := 1
            error_ratio := 0
            bytes_transferred_mean := 0
            user_agent_count := 1
            requests_1m := request_count
            requests_5m := request_count
            requests_15m := request_count
            requests_30m := request_count
            requests_60m := request_count }
    anomaly_score := 1
    cluster_label := 0 }

/-- A six-row batch whose `request_count` column is `[1, 1, 1, 1, 3, 10]`:
its mean is 17/6, its population variance 389/36 and its sample variance
389/30, so the row with count 10 lies between the two thresholds
`mean + 2·stddev`. -/
def hfreqRows : List AnalysisResult :=
  [plainRow "a" 1, plainRow "b" 1, plainRow "c" 1, plainRow "d" 1,
   plainRow "e" 3, plainRow "f" 10]

/-- A one-entry batch used to instantiate the universally quantified theorems
below at a concrete input. -/
def demoLogs : List LogEntry :=
  [{ ip := "10.0.0.1", timestamp := 0, path := "/index", status_code := 200,
     bytes := 512, user_agent := "curl" }]

/-! Helper lemmas about `foldl max`, filters and the window counter. -/

lemma le_foldl_max (a : ℕ) : ∀ xs : List ℕ, a ≤ xs.foldl max a
  | [] => le_refl a
  | x :: xs => le_trans (le_max_left a x) (le_foldl_max (max a x) xs)

lemma mem_le_foldl_max {x : ℕ} : ∀ {xs : List ℕ} (a : ℕ), x ∈ xs → x ≤ xs.foldl max a := by
  intro xs
  induction xs with
  | nil => intro a h; cases h
  | cons y ys ih =>
    intro a h
    rcases List.mem_cons.1 h with rfl | h
    · exact le_trans (le_max_right a x) (le_foldl_max _ ys)
    · exact ih (max a y) h

lemma foldl_max_mem : ∀ (xs : List ℕ) (a : ℕ), xs.foldl max a = a ∨ xs.foldl max a ∈ xs := by
  intro xs
  induction xs with
  | nil => intro a; exact Or.inl rfl
  | cons y ys ih =>
    intro a
    show ys.foldl max (max a y) = a ∨ ys.foldl max (max a y) ∈ y :: ys
    rcases ih (max a y) with h | h
    · rcases le_total a y with hay | hya
      · right
        rw [h, max_eq_right hay]
        exact List.mem_cons_self y ys
      · left
        rw [h, max_eq_left hya]
    · right
      exact List.mem_cons_of_mem _ h

lemma foldl_max_map_mono {α : Type} (f g : α → ℕ) :
    ∀ (ts : List α) (a b : ℕ), a ≤ b → (∀ t ∈ ts, f t ≤ g t) →
      (ts.map f).foldl max a ≤ (ts.map g).foldl max b := by
  intro ts
  induction ts with
  | nil =>
    intro a b hab _
    simpa using hab
  | cons t ts ih =>
    intro a b hab hfg
    have h1 : max a (f t) ≤ max b (g t) :=
      max_le_max hab (hfg t (List.mem_cons_self t ts))
    simpa using ih _ _ h1 (fun u hu => hfg u (List.mem_cons_of_mem _ hu))

lemma length_filter_mono {α : Type} (l : List α) (p q : α → Bool)
    (h : ∀ a ∈ l, p a = true → q a = true) :
    (l.filter p).length ≤ (l.filter q).length := by
  rw [← List.countP_eq_length_filter, ← List.countP_eq_length_filter]
  exact List.countP_mono_left h

/-- On a non-empty list the window counter is the `foldl max` of the per-end
closed-interval counts. -/
lemma count_requests_eq_foldl (timestamps : List ℚ) (h : timestamps ≠ []) (w : ℕ) :
    _count_requests_in_window timestamps w =
      (timestamps.map (fun t =>
        (timestamps.filter (fun ts =>
          decide (t - 60 * (w:ℚ) ≤ ts) && decide (ts ≤ t))).length)).foldl max 0 := by
  unfold _count_requests_in_window
  rw [if_neg h]

/-- Every timestamp lies inside its own closed window, so the per-end count is
at least 1. -/
lemma one_le_window_count_at (timestamps : List ℚ) {t : ℚ} (ht : t ∈ timestamps) (w : ℕ) :
    1 ≤ (timestamps.filter (fun ts =>
      decide (t - 60 * (w:ℚ) ≤ ts) && decide (ts ≤ t))).length := by
  have hmem : t ∈ timestamps.filter (fun ts =>
      decide (t - 60 * (w:ℚ) ≤ ts) && decide (ts ≤ t)) := by
    refine List.mem_filter.2 ⟨ht, ?_⟩
    simp only [Bool.and_eq_true, decide_eq_true_eq]
    refine ⟨?_, le_refl t⟩
    have h0 : (0:ℚ) ≤ 60 * w := by positivity
    linarith
  exact List.length_pos_of_mem hmem

lemma one_le_count_requests {timestamps : List ℚ} (h : timestamps ≠ []) (w : ℕ) :
    1 ≤ _count_requests_in_window timestamps w := by
  rw [count_requests_eq_foldl _ h]
  obtain ⟨t, ht⟩ := List.exists_mem_of_ne_nil _ h
  exact le_trans (one_le_window_count_at _ ht w) (mem_le_foldl_max _ (List.mem_map_of_mem _ ht))

lemma count_requests_mono (timestamps : List ℚ) {w1 w2 : ℕ} (h : w1 ≤ w2) :
    _count_requests_in_window timestamps w1 ≤ _count_requests_in_window timestamps w2 := by
  by_cases hn : timestamps = []
  · subst hn
    simp [_count_requests_in_window]
  · rw [count_requests_eq_foldl _ hn, count_requests_eq_foldl _ hn]
    refine foldl_max_map_mono _ _ _ 0 0 le_rfl (fun t _ => ?_)
    refine length_filter_mono _ _ _ (fun s _ hs => ?_)
    simp only [Bool.and_eq_true, decide_eq_true_eq] at hs ⊢
    have hw : (w1:ℚ) ≤ w2 := by exact_mod_cast h
    exact ⟨by linarith [hs.1], hs.2⟩

/-- C2 counterexample: on the two timestamps 0 and 60 seconds with the
1-minute window, the code's count (closed interval, line 82) is 2 — the
timestamp exactly at `t − window` IS counted — while the spec's
half-open-at-start count is 1, so the claimed equality fails. -/
theorem C2_counterexample :
    _count_requests_in_window [0, 60] 1 = 2 ∧ windowCountSpec [0, 60] 1 = 1 ∧
    _count_requests_in_window [0, 60] 1 ≠ windowCountSpec [0, 60] 1 := by
  have h : ([0, 60] : List ℚ) ≠ [] := by simp
  norm_num [_count_requests_in_window, windowCountSpec, h]

/-- C2 (amended): for every address and window size `w`, the windowed request
count is the maximum, over the address's timestamps `t`, of the number of
timestamps in the CLOSED interval `[t − w, t]` — a timestamp exactly equal to
`t − w` is counted: every such per-end count is at most the result, and the
result is attained at some timestamp. -/
theorem C2_window_count_closed_interval (timestamps : List ℚ) (w : ℕ)
    (h : timestamps ≠ []) :
    (∀ t ∈ timestamps,
      (timestamps.filter (fun ts =>
        decide (t - 60 * (w:ℚ) ≤ ts) && decide (ts ≤ t))).length ≤
          _count_requests_in_window timestamps w) ∧
    (∃ t ∈ timestamps, _count_requests_in_window timestamps w =
      (timestamps.filter (fun ts =>
        decide (t - 60 * (w:ℚ) ≤ ts) && decide (ts ≤ t))).length) := by
  rw [count_requests_eq_foldl _ h]
  constructor
  · intro t ht
    exact mem_le_foldl_max _ (List.mem_map_of_mem _ ht)
  · rcases foldl_max_mem (timestamps.map (fun t =>
        (timestamps.filter (fun ts =>
          decide (t - 60 * (w:ℚ) ≤ ts) && decide (ts ≤ t))).length)) 0 with h0 | hmem
    · obtain ⟨t, ht⟩ := List.exists_mem_of_ne_nil _ h
      have h1 := one_le_window_count_at timestamps ht w
      have h2 : (timestamps.filter (fun ts =>
          decide (t - 60 * (w:ℚ) ≤ ts) && decide (ts ≤ t))).length ≤ 0 := by
        have h3 := mem_le_foldl_max 0 (List.mem_map_of_mem (fun t =>
          (timestamps.filter (fun ts =>
            decide (t - 60 * (w:ℚ) ≤ ts) && decide (ts ≤ t))).length) ht)
        rw [h0] at h3
        exact h3
      refine ⟨t, ht, ?_⟩
      rw [h0]
      omega
    · obtain ⟨t, ht, hft⟩ := List.mem_map.1 hmem
      exact ⟨t, ht, hft.symm⟩

/-- C2 witness: the amended theorem applied to the concrete timestamps 0 and
60 seconds with the 1-minute window. -/
theorem C2_window_count_closed_interval_witness :
    (([0, 60] : List ℚ).filter (fun ts =>
      decide ((60:ℚ) - 60 * ((1:ℕ):ℚ) ≤ ts) && decide (ts ≤ 60))).length ≤
        _count_requests_in_window [0, 60] 1 :=
  (C2_window_count_closed_interval [0, 60] 1 (by decide)).1 60 (by decide)

/-- C7: the windowed request counts of every feature row are non-decreasing
as the window size increases through the configured sizes 1, 5, 15, 30 and 60
minutes. -/
theorem C7_window_counts_monotone (logs : List LogEntry) (fv : FeatureVector)
    (h : fv ∈ extract_features logs) :
    fv.requests_1m ≤ fv.requests_5m ∧ fv.requests_5m ≤ fv.requests_15m ∧
    fv.requests_15m ≤ fv.requests_30m ∧ fv.requests_30m ≤ fv.requests_60m := by
  obtain ⟨ip, _, rfl⟩ := List.mem_map.1 h
  exact ⟨count_requests_mono _ (by norm_num), count_requests_mono _ (by norm_num),
    count_requests_mono _ (by norm_num), count_requests_mono _ (by norm_num)⟩

/-- C7 witness: the monotonicity chain evaluated on the one-entry demo
batch. -/
theorem C7_window_counts_monotone_witness :
    (featureFor demoLogs "10.0.0.1").requests_1m ≤
      (featureFor demoLogs "10.0.0.1").requests_5m :=
  (C7_window_counts_monotone demoLogs (featureFor demoLogs "10.0.0.1")
    (by simp [extract_features, demoLogs])).1

/-- C10: every feature row of a batch has all five windowed request counts at
least 1 — each timestamp is counted inside its own window, a strictly
stronger bound than the stated `int ≥ 0`. -/
theorem C10_window_counts_positive (logs : List LogEntry) (fv : FeatureVector)
    (h : fv ∈ extract_features logs) :
    1 ≤ fv.requests_1m ∧ 1 ≤ fv.requests_5m ∧ 1 ≤ fv.requests_15m ∧
    1 ≤ fv.requests_30m ∧ 1 ≤ fv.requests_60m := by
  obtain ⟨ip, hip, rfl⟩ := List.mem_map.1 h
  have hne : ((logs.filter (fun l => l.ip == ip)).map
      (fun l => l.timestamp)).insertionSort (· ≤ ·) ≠ [] := by
    have hip' : ip ∈ logs.map (fun l => l.ip) := List.mem_dedup.1 hip
    obtain ⟨l, hl, hlip⟩ := List.mem_map.1 hip'
    have hlf : l ∈ logs.filter (fun l => l.ip == ip) :=
      List.mem_filter.2 ⟨hl, by simp [hlip]⟩
    refine List.ne_nil_of_length_pos ?_
    rw [List.length_insertionSort, List.length_map]
    exact List.length_pos_of_mem hlf
  exact ⟨one_le_count_requests hne 1, one_le_count_requests hne 5,
    one_le_count_requests hne 15, one_le_count_requests hne 30,
    one_le_count_requests hne 60⟩

/-- C10 witness: the positive lower bound evaluated on the one-entry demo
batch. -/
theorem C10_window_counts_positive_witness :
    1 ≤ (featureFor demoLogs "10.0.0.1").requests_1m :=
  (C10_window_counts_positive demoLogs (featureFor demoLogs "10.0.0.1")
    (by simp [extract_features, demoLogs])).1

/-- Status codes `< 400` and `≥ 400` partition a group. -/
lemma status_filter_partition (l : List LogEntry) :
    (l.filter (fun x => decide (x.status_code < 400))).length +
    (l.filter (fun x => decide (400 ≤ x.status_code))).length = l.length := by
  induction l with
  | nil => simp
  | cons x xs ih =>
    by_cases h : x.status_code < 400
    · have h' : ¬ 400 ≤ x.status_code := by omega
      simp [List.filter_cons, h, h']
      omega
    · have h' : 400 ≤ x.status_code := by omega
      simp [List.filter_cons, h, h']
      omega

/-- C8: every source address occurring in the batch yields exactly one feature
row; every row's success and error ratios sum to exactly 1 (status codes
`< 400` and `≥ 400` partition the group); and a single-entry group gets 0 for
both the average and the standard deviation of inter-arrival times rather
than an error. -/
theorem C8_feature_rows_wellformed (logs : List LogEntry) (addr : String)
    (haddr : addr ∈ logs.map (fun l => l.ip)) :
    (extract_features logs).countP (fun fv => fv.ip == addr) = 1 ∧
    (∀ fv ∈ extract_features logs, fv.success_ratio + fv.error_ratio = 1) ∧
    (∀ fv ∈ extract_features logs,
      (logs.filter (fun l => l.ip == fv.ip)).length = 1 →
        fv.avg_time_between_requests = 0 ∧ fv.var_time_between_requests = 0 ∧
        std_time_between_requests fv = 0) := by
  refine ⟨?_, ?_, ?_⟩
  · rw [extract_features, List.countP_map]
    have hcount : ((logs.map (fun l => l.ip)).dedup).count addr = 1 :=
      List.count_eq_one_of_mem (List.nodup_dedup _) (List.mem_dedup.2 haddr)
    exact hcount
  · intro fv hfv
    obtain ⟨ip, hip, rfl⟩ := List.mem_map.1 hfv
    have hip' : ip ∈ logs.map (fun l => l.ip) := List.mem_dedup.1 hip
    obtain ⟨l, hl, hlip⟩ := List.mem_map.1 hip'
    have hlf : l ∈ logs.filter (fun l => l.ip == ip) :=
      List.mem_filter.2 ⟨hl, by simp [hlip]⟩
    have hn : 0 < (logs.filter (fun l => l.ip == ip)).length :=
      List.length_pos_of_mem hlf
    have hpart := status_filter_partition (logs.filter (fun l => l.ip == ip))
    simp only [featureFor]
    rw [div_add_div_same]
    have hcast : (((logs.filter (fun l => l.ip == ip)).filter
          (fun l => decide (l.status_code < 400))).length : ℚ) +
        (((logs.filter (fun l => l.ip == ip)).filter
          (fun l => decide (400 ≤ l.status_code))).length : ℚ) =
        ((logs.filter (fun l => l.ip == ip)).length : ℚ) := by
      exact_mod_cast hpart
    rw [hcast]
    exact div_self (by exact_mod_cast hn.ne')
  · intro fv hfv h1
    obtain ⟨ip, hip, rfl⟩ := List.mem_map.1 hfv
    have hip_eq : (featureFor logs ip).ip = ip := rfl
    rw [hip_eq] at h1
    obtain ⟨a, ha⟩ := List.length_eq_one.1 h1
    have havg : (featureFor logs ip).avg_time_between_requests = 0 := by
      simp [featureFor, ha, npDiff]
    have hvar : (featureFor logs ip).var_time_between_requests = 0 := by
      simp [featureFor, ha, npDiff]
    refine ⟨havg, hvar, ?_⟩
    rw [std_time_between_requests, hvar]
    simp [Real.sqrt_zero]

/-- C8 witness: the three properties evaluated on the one-entry demo batch. -/
theorem C8_feature_rows_wellformed_witness :
    (extract_features demoLogs).countP (fun fv => fv.ip == "10.0.0.1") = 1 ∧
    (featureFor demoLogs "10.0.0.1").success_ratio +
      (featureFor demoLogs "10.0.0.1").error_ratio = 1 ∧
    (featureFor demoLogs "10.0.0.1").avg_time_between_requests = 0 ∧
    std_time_between_requests (featureFor demoLogs "10.0.0.1") = 0 := by
  have h := C8_feature_rows_wellformed demoLogs "10.0.0.1" (by simp [demoLogs])
  have hmem : featureFor demoLogs "10.0.0.1" ∈ extract_features demoLogs := by
    simp [extract_features, demoLogs]
  have h3 := h.2.2 _ hmem (by simp [demoLogs, featureFor])
  exact ⟨h.1, h.2.1 _ hmem, h3.1, h3.2.2⟩

/-- The square-root-free form used by `exceedsTwoStd` is exactly the source's
threshold comparison `x > m + 2·√v`. -/
lemma gt_mean_add_two_sqrt_iff (m v x : ℝ) (hv : 0 ≤ v) :
    m + 2 * Real.sqrt v < x ↔ m < x ∧ 4 * v < (x - m)^2 := by
  have hs := Real.sqrt_nonneg v
  have hsq : Real.sqrt v ^ 2 = v := Real.sq_sqrt hv
  constructor
  · intro h
    refine ⟨by nlinarith, ?_⟩
    nlinarith [mul_pos (by nlinarith : (0:ℝ) < x - m - 2 * Real.sqrt v)
      (by nlinarith : (0:ℝ) < x - m + 2 * Real.sqrt v)]
  · rintro ⟨h1, h2⟩
    by_contra hc
    push_neg at hc
    nlinarith [mul_nonneg (by nlinarith : (0:ℝ) ≤ m + 2 * Real.sqrt v - x)
      (by nlinarith : (0:ℝ) ≤ x - m + 2 * Real.sqrt v)]

lemma sampleVariance_nonneg (xs : List ℚ) : 0 ≤ sampleVariance xs := by
  rcases xs with _ | ⟨x, xs⟩
  · simp [sampleVariance, mean]
  · apply div_nonneg
    · apply List.sum_nonneg
      intro q hq
      obtain ⟨y, _, rfl⟩ := List.mem_map.1 hq
      positivity
    · have h1 : ((x :: xs).length : ℚ) = (xs.length : ℚ) + 1 := by
        push_cast [List.length_cons]
        ring
      rw [h1]
      have : (0:ℚ) ≤ (xs.length : ℚ) := by positivity
      linarith

/-- C3 counterexample: on `hfreqRows` (request counts 1, 1, 1, 1, 3, 10) the
row with count 10 exceeds `mean + 2·population-stddev`, the claim's
criterion, yet `_get_high_frequency_ips` — whose pandas `std()` is the
sample standard deviation, `ddof=1` — does not flag it. -/
theorem C3_counterexample :
    specHighFrequencyFlag hfreqRows (plainRow "f" 10) = true ∧
    plainRow "f" 10 ∉ _get_high_frequency_ips hfreqRows := by
  constructor
  · norm_num [specHighFrequencyFlag, exceedsTwoStd, mean, popVariance,
      hfreqRows, plainRow]
  · intro hmem
    simp only [_get_high_frequency_ips] at hmem
    have hpred := (List.mem_filter.1 hmem).2
    norm_num [exceedsTwoStd, mean, sampleVariance, hfreqRows, plainRow] at hpred

/-- C3 (amended): an address is flagged high-frequency iff its request_count
exceeds the batch mean of request_count plus 2 times the SAMPLE standard
deviation (pandas default `ddof=1`, not the population one), both recomputed
over the full result set each run. -/
theorem C3_high_frequency_sample_std (df : List AnalysisResult) (r : AnalysisResult) :
    r ∈ _get_high_frequency_ips df ↔
      r ∈ df ∧
        (((mean (df.map (fun t => (t.fv.request_count : ℚ))) : ℚ) : ℝ) +
          2 * Real.sqrt (((sampleVariance (df.map (fun t => (t.fv.request_count : ℚ))) : ℚ)) : ℝ) <
            (r.fv.request_count : ℝ)) := by
  have hv : (0:ℝ) ≤ (((sampleVariance (df.map (fun t => (t.fv.request_count : ℚ))) : ℚ)) : ℝ) := by
    exact_mod_cast sampleVariance_nonneg _
  simp only [_get_high_frequency_ips, List.mem_filter, exceedsTwoStd,
    Bool.and_eq_true, decide_eq_true_eq]
  refine and_congr_right (fun _ => ?_)
  rw [gt_mean_add_two_sqrt_iff _ _ _ hv]
  constructor
  · rintro ⟨h1, h2⟩
    exact ⟨by exact_mod_cast h1, by exact_mod_cast h2⟩
  · rintro ⟨h1, h2⟩
    exact ⟨by exact_mod_cast h1, by exact_mod_cast h2⟩

/-- The additive risk score exactly as the claim states it: 3 if
`request_count > 1000` else 2 if `> 500` else 0; plus 3 if
`avg_inter_arrival < 0.1`; plus 2 if `error_ratio > 0.5`; plus 2 if
`distinct_user_agent_count > 10`. -/
def riskScoreSpec (request_count : ℕ) (avg : ℚ) (err : ℚ) (ua : ℕ) : ℕ :=
  (if 1000 < request_count then 3 else if 500 < request_count then 2 else 0) +
  (if avg < 1/10 then 3 else 0) + (if 1/2 < err then 2 else 0) +
  (if 10 < ua then 2 else 0)

/-- The claim's thresholds: total ≥ 8 → High, ≥ 5 → Medium, else Low. -/
def riskLevelOfScore (s : ℕ) : String :=
  if 8 ≤ s then "High" else if 5 ≤ s then "Medium" else "Low"

lemma calculate_risk_level_eq (rc : ℕ) (avg err : ℚ) (ua : ℕ) :
    _calculate_risk_level rc avg err ua = riskLevelOfScore (riskScoreSpec rc avg err ua) := by
  simp only [_calculate_risk_level, riskScoreSpec, riskLevelOfScore]
  split_ifs <;> rfl

/-- C4: the risk level of lines 215-240 is exactly the additive
score-and-threshold formula of the claim. -/
theorem C4_risk_score_formula (request_count : ℕ)
    (avg_time_between_requests error_ratio : ℚ) (user_agent_count : ℕ) :
    _calculate_risk_level request_count avg_time_between_requests
        error_ratio user_agent_count =
      riskLevelOfScore (riskScoreSpec request_count avg_time_between_requests
        error_ratio user_agent_count) :=
  calculate_risk_level_eq request_count avg_time_between_requests
    error_ratio user_agent_count

/-- The ordering Low < Medium < High, as a rank. -/
def riskRank (s : String) : ℕ :=
  if s = "High" then 2 else if s = "Medium" then 1 else 0

lemma riskRank_levelOfScore_mono {s1 s2 : ℕ} (h : s1 ≤ s2) :
    riskRank (riskLevelOfScore s1) ≤ riskRank (riskLevelOfScore s2) := by
  unfold riskLevelOfScore
  split_ifs <;> simp [riskRank] <;> omega

lemma riskScoreSpec_mono_rc {rc rc' : ℕ} (avg err : ℚ) (ua : ℕ) (h : rc ≤ rc') :
    riskScoreSpec rc avg err ua ≤ riskScoreSpec rc' avg err ua := by
  unfold riskScoreSpec
  have hx : (if 1000 < rc then 3 else if 500 < rc then 2 else 0 : ℕ) ≤
      (if 1000 < rc' then 3 else if 500 < rc' then 2 else 0 : ℕ) := by
    split_ifs <;> omega
  exact Nat.add_le_add (Nat.add_le_add (Nat.add_le_add hx le_rfl) le_rfl) le_rfl

lemma riskScoreSpec_mono_avg (rc : ℕ) {avg avg' : ℚ} (err : ℚ) (ua : ℕ)
    (h : avg' ≤ avg) :
    riskScoreSpec rc avg err ua ≤ riskScoreSpec rc avg' err ua := by
  unfold riskScoreSpec
  have hx : (if avg < 1/10 then 3 else 0 : ℕ) ≤ (if avg' < 1/10 then 3 else 0 : ℕ) := by
    split_ifs with hA hB
    · omega
    · exact absurd (lt_of_le_of_lt h hA) hB
    · omega
    · omega
  exact Nat.add_le_add (Nat.add_le_add (Nat.add_le_add le_rfl hx) le_rfl) le_rfl

lemma riskScoreSpec_mono_err (rc : ℕ) (avg : ℚ) {err err' : ℚ} (ua : ℕ)
    (h : err ≤ err') :
    riskScoreSpec rc avg err ua ≤ riskScoreSpec rc avg err' ua := by
  unfold riskScoreSpec
  have hx : (if 1/2 < err then 2 else 0 : ℕ) ≤ (if 1/2 < err' then 2 else 0 : ℕ) := by
    split_ifs with hA hB
    · omega
    · exact absurd (lt_of_lt_of_le hA h) hB
    · omega
    · omega
  exact Nat.add_le_add (Nat.add_le_add le_rfl hx) le_rfl

lemma riskScoreSpec_mono_ua (rc : ℕ) (avg err : ℚ) {ua ua' : ℕ} (h : ua ≤ ua') :
    riskScoreSpec rc avg err ua ≤ riskScoreSpec rc avg err ua' := by
  unfold riskScoreSpec
  have hx : (if 10 < ua then 2 else 0 : ℕ) ≤ (if 10 < ua' then 2 else 0 : ℕ) := by
    split_ifs <;> omega
  exact Nat.add_le_add le_rfl hx

/-- C5: increasing any single contributing metric — increasing
`request_count`, decreasing `avg_time_between_requests`, increasing
`error_ratio`, or increasing `user_agent_count` — while holding the other
three fixed never decreases the risk level, under Low < Medium < High. -/
theorem C5_risk_level_monotone (rc rc' : ℕ) (avg avg' err err' : ℚ) (ua ua' : ℕ)
    (h1 : rc ≤ rc') (h2 : avg' ≤ avg) (h3 : err ≤ err') (h4 : ua ≤ ua') :
    riskRank (_calculate_risk_level rc avg err ua) ≤
      riskRank (_calculate_risk_level rc' avg err ua) ∧
    riskRank (_calculate_risk_level rc avg err ua) ≤
      riskRank (_calculate_risk_level rc avg' err ua) ∧
    riskRank (_calculate_risk_level rc avg err ua) ≤
      riskRank (_calculate_risk_level rc avg err' ua) ∧
    riskRank (_calculate_risk_level rc avg err ua) ≤
      riskRank (_calculate_risk_level rc avg err ua') := by
  simp only [calculate_risk_level_eq]
  exact ⟨riskRank_levelOfScore_mono (riskScoreSpec_mono_rc avg err ua h1),
    riskRank_levelOfScore_mono (riskScoreSpec_mono_avg rc err ua h2),
    riskRank_levelOfScore_mono (riskScoreSpec_mono_err rc avg ua h3),
    riskRank_levelOfScore_mono (riskScoreSpec_mono_ua rc avg err h4)⟩

/-- C5 witness: the request-count conjunct evaluated at 501 against 1001. -/
theorem C5_risk_level_monotone_witness :
    riskRank (_calculate_risk_level 501 1 0 1) ≤
      riskRank (_calculate_risk_level 1001 1 0 1) :=
  (C5_risk_level_monotone 501 1001 1 0 0 1 1 11 (by norm_num) (by norm_num)
    (by norm_num) (by norm_num)).1

/-- The let-chain of `_generate_recommendations` is the concatenation of four
independent optional singletons, in source order. -/
lemma generate_recommendations_eq (df : List AnalysisResult) :
    _generate_recommendations df =
      (if df.any (fun r => decide (1000 < r.fv.request_count))
        then [recRateLimiting] else []) ++
      (if df.any (fun r => decide (10 < r.fv.user_agent_count))
        then [recUserAgents] else []) ++
      (if df.any (fun r => decide ((1:ℚ)/2 < r.fv.error_ratio))
        then [recErrorRates] else []) ++
      (if df.any (fun r => decide (r.fv.avg_time_between_requests < 1/10))
        then [recTiming] else []) := by
  unfold _generate_recommendations
  split_ifs <;> simp

lemma rec_strings_distinct :
    recRateLimiting ≠ recUserAgents ∧ recRateLimiting ≠ recErrorRates ∧
    recRateLimiting ≠ recTiming ∧ recUserAgents ≠ recErrorRates ∧
    recUserAgents ≠ recTiming ∧ recErrorRates ≠ recTiming := by
  refine ⟨?_, ?_, ?_, ?_, ?_, ?_⟩ <;> decide

lemma optSingleton_sublist (b : Bool) (s : String) :
    (if b then [s] else []).Sublist [s] := by
  cases b <;> simp

lemma mem_optSingleton {s t : String} {b : Bool} :
    s ∈ (if b then [t] else []) ↔ b = true ∧ s = t := by
  cases b <;> simp

/-- C6: the recommendation list contains each of the four fixed
recommendations at most once; contains one iff some row satisfies its
predicate (`request_count > 1000`, `user_agent_count > 10`,
`error_ratio > 0.5`, `avg_inter_arrival < 0.1` respectively); and whatever is
present appears in the fixed order frequency, user-agent, error, timing. -/
theorem C6_recommendations (df : List AnalysisResult) :
    ((_generate_recommendations df).count recRateLimiting ≤ 1 ∧
     (_generate_recommendations df).count recUserAgents ≤ 1 ∧
     (_generate_recommendations df).count recErrorRates ≤ 1 ∧
     (_generate_recommendations df).count recTiming ≤ 1) ∧
    ((recRateLimiting ∈ _generate_recommendations df ↔
        ∃ r ∈ df, 1000 < r.fv.request_count) ∧
     (recUserAgents ∈ _generate_recommendations df ↔
        ∃ r ∈ df, 10 < r.fv.user_agent_count) ∧
     (recErrorRates ∈ _generate_recommendations df ↔
        ∃ r ∈ df, (1:ℚ)/2 < r.fv.error_ratio) ∧
     (recTiming ∈ _generate_recommendations df ↔
        ∃ r ∈ df, r.fv.avg_time_between_requests < 1/10)) ∧
    (_generate_recommendations df).Sublist
      [recRateLimiting, recUserAgents, recErrorRates, recTiming] := by
  obtain ⟨hd1, hd2, hd3, hd4, hd5, hd6⟩ := rec_strings_distinct
  rw [generate_recommendations_eq]
  have hsub : ((if df.any (fun r => decide (1000 < r.fv.request_count))
        then [recRateLimiting] else []) ++
      (if df.any (fun r => decide (10 < r.fv.user_agent_count))
        then [recUserAgents] else []) ++
      (if df.any (fun r => decide ((1:ℚ)/2 < r.fv.error_ratio))
        then [recErrorRates] else []) ++
      (if df.any (fun r => decide (r.fv.avg_time_between_requests < 1/10))
        then [recTiming] else [])).Sublist
      [recRateLimiting, recUserAgents, recErrorRates, recTiming] :=
    List.Sublist.append (List.Sublist.append (List.Sublist.append
      (optSingleton_sublist _ _) (optSingleton_sublist _ _))
      (optSingleton_sublist _ _)) (optSingleton_sublist _ _)
  refine ⟨⟨?_, ?_, ?_, ?_⟩, ⟨?_, ?_, ?_, ?_⟩, hsub⟩
  · exact le_trans (hsub.count_le recRateLimiting) (by decide)
  · exact le_trans (hsub.count_le recUserAgents) (by decide)
  · exact le_trans (hsub.count_le recErrorRates) (by decide)
  · exact le_trans (hsub.count_le recTiming) (by decide)
  · simp [List.mem_append, mem_optSingleton, hd1, hd2, hd3,
      List.any_eq_true, decide_eq_true_eq]
  · simp [List.mem_append, mem_optSingleton, Ne.symm hd1, hd4, hd5,
      List.any_eq_true, decide_eq_true_eq]
  · simp [List.mem_append, mem_optSingleton, Ne.symm hd2, Ne.symm hd4, hd6,
      List.any_eq_true, decide_eq_true_eq]
  · simp [List.mem_append, mem_optSingleton, Ne.symm hd3, Ne.symm hd5, Ne.symm hd6,
      List.any_eq_true, decide_eq_true_eq]

/-- C1: on the empty batch `extract_features` does return an empty frame, but
`analyze_patterns` then fails — the scaler of line 101 rejects a zero-sample
matrix with a ValueError that propagates out of the call — instead of
returning an empty result set with zero-valued metrics. -/
theorem C1_empty_batch_raises :
    extract_features [] = [] ∧
    ∀ models : PatternModels,
      analyze_patterns models (extract_features []) =
        Except.error zeroSamplesMessage := by
  refine ⟨rfl, fun models => ?_⟩
  simp [analyze_patterns, fit_transform, extract_features]

/-- C9: with the detector and the clusterer fixed deterministic functions
(the seed `random_state=42` is hard-coded at line 14), the pipeline is a pure
function of the batch: two runs on an identical batch give identical result
rows — hence identical outlier and cluster labels per address — and
identical risk levels in the anomaly findings. -/
theorem C9_pipeline_deterministic (models : PatternModels) (logs : List LogEntry) :
    analyze_patterns models (extract_features logs) =
      analyze_patterns models (extract_features logs) ∧
    Except.map (fun out =>
        (out.1.map (fun r => (r.fv.ip, r.anomaly_score, r.cluster_label)),
         (_analyze_anomalies out.1).map (fun f => (f.ip, f.risk_level))))
      (analyze_patterns models (extract_features logs)) =
      Except.map (fun out =>
        (out.1.map (fun r => (r.fv.ip, r.anomaly_score, r.cluster_label)),
         (_analyze_anomalies out.1).map (fun f => (f.ip, f.risk_level))))
      (analyze_patterns models (extract_features logs)) :=
  ⟨rfl, rfl⟩

end TrafficPatternClassifier
